import Mathlib

/-!
Verification of the wasmtime host/guest boundary layer (crates/api) against its
specification.  The definitions below are a shallow embedding of
`crates/api/src/externals.rs`, `crates/api/src/callable.rs` and
`crates/fuzzing/src/oracles/dummy.rs`.  Machine integers are modelled as
`Nat`/`Int` with explicit two's-complement reduction; fallible Rust functions
return `Except`; functions that can both fail recoverably and abort the process
return `Outcome`, whose `panic` constructor marks an unrecoverable abort
(`unimplemented!` / `expect`).  Parts of the repository that are referenced but
not present in the sources (the value marshaler of `values.rs`, the runtime
table/global primitives, the export generators) are modelled from the spec and
carry a doc comment saying so.
-/

namespace Wasmtime

/-- Two's-complement reduction: the low bits of the integer `i` as an unsigned
machine word, for a modulus `m` (e.g. `2 ^ 32` for `i32`). -/
def toUnsigned (m : Nat) (i : Int) : Nat := (i % (m : Int)).toNat

/-- Signed reinterpretation of an unsigned machine word `n` for modulus `m`:
values at or above `m / 2` represent negatives. -/
def toSigned (m : Nat) (n : Nat) : Int :=
  if 2 * n < m then (n : Int) else (n : Int) - (m : Int)

/-- Overwrite the low word (of modulus `m`) of the raw cell `s` with `b`,
leaving the higher bytes of the cell unchanged.  Models a typed store through
`as_i32_mut`/`as_u32_mut`/… into the 128-bit raw global cell. -/
def setLow (m s b : Nat) : Nat := s / m * m + b % m

/-- The value types of the embedding (`ValType` in the api crate): the four
core numeric types, the vector and reference types, and the interface-types
extension (`S8`..`U64`, `String`), exactly the variants enumerated in
`crates/fuzzing/src/oracles/dummy.rs`. -/
inductive ValType where
  | i32 | i64 | f32 | f64
  | v128
  | anyref
  | funcref
  | s8 | u8 | s16 | u16 | s32 | u32 | s64 | u64
  | string
deriving DecidableEq

/-- Global mutability (`Mutability` in the api crate). -/
inductive Mutability where
  | const
  | var
deriving DecidableEq

/-- A store is identified by its identity; `Store::same` compares identities. -/
abbrev Store := Nat

/-- Runtime values (`Val` in the api crate).  Floating-point values are carried
as raw bit patterns (`F32(u32)` / `F64(u64)` in the source).  `funcref` is an
opaque function reference carrying the identity of its owning store and of the
underlying function; `anyrefNull` is the null reference. -/
inductive Val where
  | i32 (v : Int)
  | i64 (v : Int)
  | f32 (bits : Nat)
  | f64 (bits : Nat)
  | s8 (v : Int)
  | u8 (v : Nat)
  | s16 (v : Int)
  | u16 (v : Nat)
  | s32 (v : Int)
  | u32 (v : Nat)
  | s64 (v : Int)
  | u64 (v : Nat)
  | string (s : String)
  | funcref (store : Store) (id : Nat)
  | anyrefNull
deriving DecidableEq

/-- `Val::ty`: the tag of a value. -/
def Val.ty : Val → ValType
  | .i32 _ => .i32
  | .i64 _ => .i64
  | .f32 _ => .f32
  | .f64 _ => .f64
  | .s8 _ => .s8
  | .u8 _ => .u8
  | .s16 _ => .s16
  | .u16 _ => .u16
  | .s32 _ => .s32
  | .u32 _ => .u32
  | .s64 _ => .s64
  | .u64 _ => .u64
  | .string _ => .string
  | .funcref _ _ => .funcref
  | .anyrefNull => .anyref

/-- `Val::comes_from_same_store`: only reference values carry a store; plain
numeric (and string) values belong to every store. -/
def Val.comesFromSameStore (v : Val) (store : Store) : Prop :=
  match v with
  | .funcref st _ => st = store
  | _ => True

instance (v : Val) (s : Store) : Decidable (v.comesFromSameStore s) := by
  cases v <;> unfold Val.comesFromSameStore <;> infer_instance

/-- Range invariant of a value: its payload fits the width of its Rust carrier
type (`i32` payloads are 32-bit two's complement, `F32` bit patterns are
`u32`s, and so on).  Every value constructed by the Rust code satisfies this
by construction of its machine-integer types. -/
def Val.wf : Val → Prop
  | .i32 v => -(2 ^ 31) ≤ v ∧ v < 2 ^ 31
  | .i64 v => -(2 ^ 63) ≤ v ∧ v < 2 ^ 63
  | .f32 bits => bits < 2 ^ 32
  | .f64 bits => bits < 2 ^ 64
  | .s8 v => -(2 ^ 7) ≤ v ∧ v < 2 ^ 7
  | .u8 v => v < 2 ^ 8
  | .s16 v => -(2 ^ 15) ≤ v ∧ v < 2 ^ 15
  | .u16 v => v < 2 ^ 16
  | .s32 v => -(2 ^ 31) ≤ v ∧ v < 2 ^ 31
  | .u32 v => v < 2 ^ 32
  | .s64 v => -(2 ^ 63) ≤ v ∧ v < 2 ^ 63
  | .u64 v => v < 2 ^ 64
  | _ => True

instance (v : Val) : Decidable v.wf := by
  cases v <;> simp [Val.wf] <;> infer_instance

/-- Unrecoverable aborts of the process (`unimplemented!` / `expect`),
identified by the site that raises them. -/
inductive Panic where
  | globalGetUnimplemented (t : ValType)
  | globalSetUnimplemented (t : ValType)
  | generatedFunc
deriving DecidableEq

/-- A boundary fault (`Trap` in the api crate): the constructor records which
diagnostic message the source formats into the trap. -/
inductive Trap where
  | arityParams (expected got : Nat)
  | arityResults (expected got : Nat)
  | typeMismatch
  | fromJit (detail : Nat)
  | dummyUnsupported (t : ValType)
deriving DecidableEq

/-- Recoverable api errors (`anyhow::bail!` sites), identified by message. -/
inductive ApiErr where
  | crossStoreGlobal
  | globalNewTypeMismatch
  | immutableGlobal
  | globalSetTypeMismatch (content valTy : ValType)
  | crossStoreValue
  | valIsNotFuncref
  | tableElementOutOfBounds
  | tableGrowFailed (delta : Nat)
  | crossStoreTableCopy
  | tableCopyOutOfBounds
deriving DecidableEq

/-- Result of an operation that may either return normally, fail with a
recoverable error of type `ε`, or abort the process. -/
inductive Outcome (ε α : Type) where
  | ok (a : α)
  | err (e : ε)
  | panic (p : Panic)
deriving DecidableEq

/-- The raw ABI types of the fixed calling convention (`ir::Type` as used by
marshaling): the four core numeric types. -/
inductive AbiTy where
  | i32 | i64 | f32 | f64
deriving DecidableEq

/-- Modelled from the spec: `ValType::get_wasmtime_type` (types.rs, not under
src/).  Maps a value tag to its ABI type; per the spec a value's tag must
equal the declared ABI type at every marshaling site, so the four core numeric
tags map to their ABI types and every other tag has no raw ABI counterpart. -/
def getWasmtimeType : ValType → Option AbiTy
  | .i32 => some .i32
  | .i64 => some .i64
  | .f32 => some .f32
  | .f64 => some .f64
  | _ => none

/-- Modelled from the spec: `Val::write_value_to` (values.rs, not under src/).
Writes the value's raw bits into one ABI slot; every primitive occupies
exactly one slot regardless of width.  Reference and string payloads carry no
raw numeric bits in the model (they are rejected by the marshaling type check
before any write occurs). -/
def write_value_to : Val → Nat
  | .i32 v => toUnsigned (2 ^ 32) v
  | .i64 v => toUnsigned (2 ^ 64) v
  | .f32 bits => bits % 2 ^ 32
  | .f64 bits => bits % 2 ^ 64
  | .s8 v => toUnsigned (2 ^ 8) v
  | .u8 v => v % 2 ^ 8
  | .s16 v => toUnsigned (2 ^ 16) v
  | .u16 v => v % 2 ^ 16
  | .s32 v => toUnsigned (2 ^ 32) v
  | .u32 v => v % 2 ^ 32
  | .s64 v => toUnsigned (2 ^ 64) v
  | .u64 v => v % 2 ^ 64
  | .string _ => 0
  | .funcref _ _ => 0
  | .anyrefNull => 0

/-- Modelled from the spec: `Val::read_value_from` (values.rs, not under
src/).  Reconstructs a typed value from one ABI slot according to the declared
type; kinds with no slot representation cannot be reconstructed. -/
def read_value_from (slot : Nat) : ValType → Option Val
  | .i32 => some (.i32 (toSigned (2 ^ 32) (slot % 2 ^ 32)))
  | .i64 => some (.i64 (toSigned (2 ^ 64) (slot % 2 ^ 64)))
  | .f32 => some (.f32 (slot % 2 ^ 32))
  | .f64 => some (.f64 (slot % 2 ^ 64))
  | .s8 => some (.s8 (toSigned (2 ^ 8) (slot % 2 ^ 8)))
  | .u8 => some (.u8 (slot % 2 ^ 8))
  | .s16 => some (.s16 (toSigned (2 ^ 16) (slot % 2 ^ 16)))
  | .u16 => some (.u16 (slot % 2 ^ 16))
  | .s32 => some (.s32 (toSigned (2 ^ 32) (slot % 2 ^ 32)))
  | .u32 => some (.u32 (slot % 2 ^ 32))
  | .s64 => some (.s64 (toSigned (2 ^ 64) (slot % 2 ^ 64)))
  | .u64 => some (.u64 (slot % 2 ^ 64))
  | _ => none

/-- `dummy_value` from `crates/fuzzing/src/oracles/dummy.rs`: the default
(zero) value of each type; the vector, reference and string kinds are
unsupported and yield a trap. -/
def dummy_value : ValType → Except Trap Val
  | .i32 => .ok (.i32 0)
  | .i64 => .ok (.i64 0)
  | .f32 => .ok (.f32 0)
  | .f64 => .ok (.f64 0)
  | .v128 => .error (.dummyUnsupported .v128)
  | .anyref => .error (.dummyUnsupported .anyref)
  | .funcref => .error (.dummyUnsupported .funcref)
  | .s8 => .ok (.s8 0)
  | .u8 => .ok (.u8 0)
  | .s16 => .ok (.s16 0)
  | .u16 => .ok (.u16 0)
  | .s32 => .ok (.s32 0)
  | .u32 => .ok (.u32 0)
  | .s64 => .ok (.s64 0)
  | .u64 => .ok (.u64 0)
  | .string => .error (.dummyUnsupported .string)

/-- C8: for every supported primitive kind, the default (dummy) value of that
kind, marshaled into a scratch slot and unmarshaled back at the same declared
type, yields the original value. -/
theorem dummy_value_roundtrip (t : ValType) (v : Val) (h : dummy_value t = .ok v) :
    read_value_from (write_value_to v) t = some v := by
  cases t <;> simp [dummy_value] at h <;> subst h <;> rfl

/-- Witness for `dummy_value_roundtrip` at the 16-bit signed kind. -/
theorem dummy_value_roundtrip_witness :
    read_value_from (write_value_to (Val.s16 0)) ValType.s16 = some (Val.s16 0) :=
  dummy_value_roundtrip ValType.s16 (Val.s16 0) rfl

/-! ## The host-initiated call (`WasmtimeFn::call`, callable.rs) -/

/-- A compiled signature as cached by the compiler: ordered ABI parameter and
result descriptors.  The first two entries of `params` are the reserved
execution-context slots (callee and caller `vmctx`), never exposed through the
public call interface. -/
structure Signature where
  params : List AbiTy
  returns : List AbiTy
deriving DecidableEq

/-- The behaviour of the compiled guest code behind the trampoline: it
receives the scratch slot buffer and either returns the buffer with result
slots filled in, or reports a guest-side fault (identified by a diagnostic
code).  `WasmtimeFn::call` is parameterised over this, since the compiled code
is outside this layer. -/
def Trampoline := List Nat → Except Nat (List Nat)

/-- Everything observable about one `WasmtimeFn::call` invocation: its result,
whether the trampoline (and hence guest code) was ever invoked, and the size
of the scratch slot buffer if one was allocated. -/
structure CallRecord where
  outcome : Outcome Trap (List Val)
  guestInvoked : Bool
  slotsAllocated : Option Nat
deriving DecidableEq

/-- The parameter-marshaling loop of `WasmtimeFn::call`:
`for ((arg, slot), ty) in params.iter().zip(&mut values_vec).zip(param_tys)`.
Like the Rust triple zip it stops at the shortest of the three lists; each
argument is type-checked against its declared ABI type (`Trap` on mismatch,
before any invocation) and written into its single slot. -/
def marshalParams : List Val → List AbiTy → List Nat → Except Trap (List Nat)
  | v :: vs, t :: ts, _ :: slots =>
    if getWasmtimeType v.ty = some t then
      match marshalParams vs ts slots with
      | .ok rest => .ok (write_value_to v :: rest)
      | .error e => .error e
    else .error .typeMismatch
  | _, _, slots => .ok slots

/-- The result-unmarshaling loop of `WasmtimeFn::call`: result slot `index` is
read back at the declared result type `signature.returns[index]`. -/
def readResults (slots : List Nat) (rts : List AbiTy) : List Val :=
  rts.enum.map fun p =>
    match p.2 with
    | .i32 => .i32 (toSigned (2 ^ 32) (slots.getD p.1 0 % 2 ^ 32))
    | .i64 => .i64 (toSigned (2 ^ 64) (slots.getD p.1 0 % 2 ^ 64))
    | .f32 => .f32 (slots.getD p.1 0 % 2 ^ 32)
    | .f64 => .f64 (slots.getD p.1 0 % 2 ^ 64)

/-- `WasmtimeFn::call` (callable.rs): the host-initiated call.  `sig` is the
callee's cached signature (whose first two parameters are the reserved context
slots; every compiled signature has them, so `2 ≤ sig.params.length`),
`tramp` the compiled guest code behind the trampoline, `params` the supplied
arguments and `nresults` the length of the caller's result buffer.
Order of operations, as in the source: arity check on parameters, arity check
on results, allocation of the scratch slot buffer of size
`max(params.len(), results.len())`, per-slot type-checked marshaling,
trampoline invocation (a guest fault is converted into a `Trap` via
`Trap::from_jit`), result unmarshaling. -/
def WasmtimeFn.call (sig : Signature) (tramp : Trampoline)
    (params : List Val) (nresults : Nat) : CallRecord :=
  if params.length ≠ sig.params.length - 2 then
    { outcome := .err (.arityParams (sig.params.length - 2) params.length),
      guestInvoked := false, slotsAllocated := none }
  else if nresults ≠ sig.returns.length then
    { outcome := .err (.arityResults sig.returns.length nresults),
      guestInvoked := false, slotsAllocated := none }
  else
    let valuesVec : List Nat := List.replicate (max params.length nresults) 0
    match marshalParams params (sig.params.drop 2) valuesVec with
    | .error t =>
      { outcome := .err t, guestInvoked := false,
        slotsAllocated := some valuesVec.length }
    | .ok slots =>
      match tramp slots with
      | .error detail =>
        { outcome := .err (.fromJit detail), guestInvoked := true,
          slotsAllocated := some valuesVec.length }
      | .ok slots' =>
        { outcome := .ok (readResults slots' sig.returns), guestInvoked := true,
          slotsAllocated := some valuesVec.length }

/-- If any supplied argument's tag fails the per-slot type check against its
declared ABI type, the marshaling loop reports a type-mismatch trap. -/
lemma marshalParams_mismatch (d : Val) (d' : AbiTy) :
    ∀ (vs : List Val) (ts : List AbiTy) (slots : List Nat) (i : Nat),
      i < vs.length → i < ts.length → i < slots.length →
      getWasmtimeType ((vs.getD i d).ty) ≠ some (ts.getD i d') →
      marshalParams vs ts slots = .error .typeMismatch := by
  intro vs
  induction vs with
  | nil => intro ts slots i hiv _ _ _; simp at hiv
  | cons v vs ih =>
    intro ts slots i hiv hit his hmis
    cases ts with
    | nil => simp at hit
    | cons t ts =>
      cases slots with
      | nil => simp at his
      | cons s slots =>
        by_cases hhead : getWasmtimeType v.ty = some t
        · cases i with
          | zero => simp [List.getD_cons_zero] at hmis; exact absurd hhead hmis
          | succ i =>
            have hrec := ih ts slots i (by simpa using hiv) (by simpa using hit)
              (by simpa using his) (by simpa using hmis)
            simp [marshalParams, hhead, hrec]
        · simp [marshalParams, hhead]

/-- On success, the marshaling loop preserves the length of the slot buffer,
writes each argument into exactly its own slot, and leaves every slot beyond
the arguments unchanged. -/
lemma marshalParams_ok (d : Val) :
    ∀ (vs : List Val) (ts : List AbiTy) (slots slots' : List Nat),
      vs.length ≤ ts.length → vs.length ≤ slots.length →
      marshalParams vs ts slots = .ok slots' →
      slots'.length = slots.length ∧
      (∀ i, i < vs.length → slots'.getD i 0 = write_value_to (vs.getD i d)) ∧
      (∀ i, vs.length ≤ i → slots'.getD i 0 = slots.getD i 0) := by
  intro vs
  induction vs with
  | nil =>
    intro ts slots slots' _ _ h
    cases ts with
    | nil =>
      simp only [marshalParams] at h
      cases h
      exact ⟨rfl, by simp, fun i _ => rfl⟩
    | cons t ts =>
      cases slots with
      | nil =>
        simp only [marshalParams] at h
        cases h
        exact ⟨rfl, by simp, fun i _ => rfl⟩
      | cons s slots =>
        simp only [marshalParams] at h
        cases h
        exact ⟨rfl, by simp, fun i _ => rfl⟩
  | cons v vs ih =>
    intro ts slots slots' hts hsl h
    cases ts with
    | nil => simp at hts
    | cons t ts =>
      cases slots with
      | nil => simp at hsl
      | cons s slots =>
        by_cases hhead : getWasmtimeType v.ty = some t
        · simp only [marshalParams, hhead, if_pos] at h
          cases hrec : marshalParams vs ts slots with
          | error e => rw [hrec] at h; cases h
          | ok rest =>
            rw [hrec] at h
            cases h
            obtain ⟨hlen, hin, hout⟩ :=
              ih ts slots rest (by simpa using hts) (by simpa using hsl) hrec
            refine ⟨by simpa using hlen, ?_, ?_⟩
            · intro i hi
              cases i with
              | zero => simp
              | succ i => simpa using hin i (by simpa using hi)
            · intro i hi
              cases i with
              | zero => simp at hi
              | succ i => simpa using hout i (by simpa using hi)
        · simp [marshalParams, hhead] at h

/-- C2: a host-initiated call whose supplied parameter count differs from the
signature's declared count (the two reserved context slots excluded), or whose
result buffer length differs from the declared result count, fails with the
corresponding arity-mismatch trap and never invokes guest code. -/
theorem call_arity_mismatch (sig : Signature) (tramp : Trampoline)
    (params : List Val) (nresults : Nat) (hctx : 2 ≤ sig.params.length)
    (h : params.length ≠ sig.params.length - 2 ∨ nresults ≠ sig.returns.length) :
    ((WasmtimeFn.call sig tramp params nresults).outcome =
        .err (.arityParams (sig.params.length - 2) params.length) ∨
      (WasmtimeFn.call sig tramp params nresults).outcome =
        .err (.arityResults sig.returns.length nresults)) ∧
    (WasmtimeFn.call sig tramp params nresults).guestInvoked = false := by
  by_cases hp : params.length = sig.params.length - 2
  · have hr : nresults ≠ sig.returns.length := by tauto
    unfold WasmtimeFn.call
    simp [hp, hr]
  · unfold WasmtimeFn.call
    simp [hp]

/-- Witness for `call_arity_mismatch`: a signature with one declared parameter
(after the two context slots) called with an empty argument list. -/
theorem call_arity_mismatch_witness :
    ((WasmtimeFn.call ⟨[.i64, .i64, .i32], [.i32]⟩ (fun s => .ok s) [] 1).outcome =
        .err (.arityParams 1 0) ∨
      (WasmtimeFn.call ⟨[.i64, .i64, .i32], [.i32]⟩ (fun s => .ok s) [] 1).outcome =
        .err (.arityResults 1 1)) ∧
    (WasmtimeFn.call ⟨[.i64, .i64, .i32], [.i32]⟩ (fun s => .ok s) [] 1).guestInvoked = false :=
  call_arity_mismatch ⟨[.i64, .i64, .i32], [.i32]⟩ (fun s => .ok s) [] 1
    (by decide) (Or.inl (by decide))

/-- C3: if any supplied argument's kind differs from the corresponding
declared parameter type of the signature, the call fails with the
type-mismatch trap and guest code is never invoked. -/
theorem call_param_type_mismatch (sig : Signature) (tramp : Trampoline)
    (params : List Val) (nresults : Nat) (hctx : 2 ≤ sig.params.length)
    (hp : params.length = sig.params.length - 2)
    (hr : nresults = sig.returns.length)
    (i : Nat) (hi : i < params.length)
    (hmis : getWasmtimeType ((params.getD i .anyrefNull).ty) ≠
      some ((sig.params.drop 2).getD i .i32)) :
    (WasmtimeFn.call sig tramp params nresults).outcome = .err .typeMismatch ∧
    (WasmtimeFn.call sig tramp params nresults).guestInvoked = false := by
  have hmar : marshalParams params (sig.params.drop 2)
      (List.replicate (max params.length nresults) 0) = .error .typeMismatch := by
    refine marshalParams_mismatch .anyrefNull .i32 params (sig.params.drop 2) _ i hi ?_ ?_ hmis
    · simpa [List.length_drop, ← hp] using hi
    · simp only [List.length_replicate]
      exact lt_of_lt_of_le hi (le_max_left _ _)
  rw [hp, hr] at hmar
  unfold WasmtimeFn.call
  simp [hp, hr, hmar]

/-- Witness for `call_param_type_mismatch`: an `i64` argument supplied for a
declared `i32` parameter. -/
theorem call_param_type_mismatch_witness :
    (WasmtimeFn.call ⟨[.i64, .i64, .i32], [.i32]⟩ (fun s => .ok s) [Val.i64 5] 1).outcome =
      .err .typeMismatch ∧
    (WasmtimeFn.call ⟨[.i64, .i64, .i32], [.i32]⟩ (fun s => .ok s) [Val.i64 5] 1).guestInvoked =
      false :=
  call_param_type_mismatch ⟨[.i64, .i64, .i32], [.i32]⟩ (fun s => .ok s) [Val.i64 5] 1
    (by decide) (by decide) (by decide) 0 (by decide) (by decide)

/-- C4: once the arity checks pass, the scratch slot buffer is allocated with
exactly `max(param_count, result_count)` slots (counts of the callee's
signature, context slots excluded), and successful marshaling keeps that
length while placing each value in exactly its own single slot. -/
theorem call_slot_buffer (sig : Signature) (tramp : Trampoline)
    (params : List Val) (nresults : Nat) (hctx : 2 ≤ sig.params.length)
    (hp : params.length = sig.params.length - 2)
    (hr : nresults = sig.returns.length) :
    (WasmtimeFn.call sig tramp params nresults).slotsAllocated =
      some (max (sig.params.length - 2) sig.returns.length) ∧
    ∀ slots', marshalParams params (sig.params.drop 2)
        (List.replicate (max params.length nresults) 0) = .ok slots' →
      slots'.length = max (sig.params.length - 2) sig.returns.length ∧
      ∀ i, i < params.length → slots'.getD i 0 = write_value_to (params.getD i .anyrefNull) := by
  constructor
  · unfold WasmtimeFn.call
    simp only [hp, hr, ne_eq, not_true_eq_false, if_false, ite_false, if_neg]
    split
    · simp
    · split <;> simp
  · intro slots' hmar
    obtain ⟨hlen, hin, _⟩ := marshalParams_ok .anyrefNull params (sig.params.drop 2) _ slots'
      (by simp [List.length_drop, hp]) (by simp [List.length_replicate]) hmar
    refine ⟨?_, hin⟩
    simpa [List.length_replicate, hp, hr] using hlen

/-- Witness for `call_slot_buffer`: one `i32` argument, one declared result. -/
theorem call_slot_buffer_witness :
    (WasmtimeFn.call ⟨[.i64, .i64, .i32], [.i32]⟩ (fun s => .ok s) [Val.i32 7] 1).slotsAllocated =
      some (max 1 1) ∧
    ∀ slots', marshalParams [Val.i32 7] (Signature.params ⟨[.i64, .i64, .i32], [.i32]⟩ |>.drop 2)
        (List.replicate (max (List.length [Val.i32 7]) 1) 0) = .ok slots' →
      slots'.length = max 1 1 ∧
      ∀ i, i < List.length [Val.i32 7] →
        slots'.getD i 0 = write_value_to ((List.getD [Val.i32 7] i .anyrefNull)) :=
  call_slot_buffer ⟨[.i64, .i64, .i32], [.i32]⟩ (fun s => .ok s) [Val.i32 7] 1
    (by decide) (by decide) (by decide)

/-- C5: when the trampoline invocation reports a guest-side fault, the call
returns an ordinary recoverable `Trap` built from the fault's diagnostic
detail (`Trap::from_jit`), and in particular never surfaces the fault as an
unrecoverable abort. -/
theorem call_guest_fault_is_trap (sig : Signature) (tramp : Trampoline)
    (params : List Val) (nresults : Nat) (hctx : 2 ≤ sig.params.length)
    (hp : params.length = sig.params.length - 2)
    (hr : nresults = sig.returns.length)
    (slots' : List Nat) (detail : Nat)
    (hm : marshalParams params (sig.params.drop 2)
      (List.replicate (max params.length nresults) 0) = .ok slots')
    (ht : tramp slots' = .error detail) :
    (WasmtimeFn.call sig tramp params nresults).outcome = .err (.fromJit detail) ∧
    ∀ p, (WasmtimeFn.call sig tramp params nresults).outcome ≠ .panic p := by
  have : (WasmtimeFn.call sig tramp params nresults).outcome = .err (.fromJit detail) := by
    rw [hp, hr] at hm
    unfold WasmtimeFn.call
    simp [hp, hr, hm, ht]
  exact ⟨this, fun p hc => by rw [this] at hc; cases hc⟩

/-- Witness for `call_guest_fault_is_trap`: guest code that faults with
diagnostic code 9. -/
theorem call_guest_fault_is_trap_witness :
    (WasmtimeFn.call ⟨[.i64, .i64, .i32], [.i32]⟩ (fun _ => .error 9) [Val.i32 7] 1).outcome =
      .err (.fromJit 9) ∧
    ∀ p, (WasmtimeFn.call ⟨[.i64, .i64, .i32], [.i32]⟩ (fun _ => .error 9) [Val.i32 7] 1).outcome ≠
      .panic p :=
  call_guest_fault_is_trap ⟨[.i64, .i64, .i32], [.i32]⟩ (fun _ => .error 9) [Val.i32 7] 1
    (by decide) (by decide) (by decide) [7] 9 rfl rfl

/-! ## Globals (`Global`, externals.rs) -/

/-- `Store::same`: two store handles denote the same store. -/
def Store.same (a b : Store) : Prop := a = b

instance (a b : Store) : Decidable (Store.same a b) := by
  unfold Store.same; infer_instance

lemma setLow_mod_32 (s b : Nat) : setLow (2 ^ 32) s b % 2 ^ 32 = b % 2 ^ 32 := by
  unfold setLow; omega

lemma setLow_mod_64 (s b : Nat) : setLow (2 ^ 64) s b % 2 ^ 64 = b % 2 ^ 64 := by
  unfold setLow; omega

lemma toSigned_toUnsigned_32 (i : Int) (hlo : -(2 ^ 31) ≤ i) (hhi : i < 2 ^ 31) :
    toSigned (2 ^ 32) (toUnsigned (2 ^ 32) i) = i := by
  unfold toSigned toUnsigned
  split <;> omega

lemma toSigned_toUnsigned_64 (i : Int) (hlo : -(2 ^ 63) ≤ i) (hhi : i < 2 ^ 63) :
    toSigned (2 ^ 64) (toUnsigned (2 ^ 64) i) = i := by
  unfold toSigned toUnsigned
  split <;> omega

/-- `GlobalType`: content type plus mutability. -/
structure GlobalType where
  content : ValType
  mutability : Mutability
deriving DecidableEq

/-- A `Global` handle (externals.rs): its owning store, its type, and the raw
contents of the underlying 128-bit definition cell it points at
(`wasmtime_export.definition`). -/
structure Global where
  store : Store
  ty : GlobalType
  storage : Nat
deriving DecidableEq

/-- `Global::new` (externals.rs): rejects a cross-store initial value, then a
value whose tag differs from the declared content type.  The storage
allocation itself (`generate_global_export`, trampoline/global.rs) is not
under src/ and is modelled from the spec: on success the new global's cell
holds the initial value's raw bits. -/
def Global.new (store : Store) (ty : GlobalType) (val : Val) : Except ApiErr Global :=
  if ¬ val.comesFromSameStore store then .error .crossStoreGlobal
  else if val.ty ≠ ty.content then .error .globalNewTypeMismatch
  else .ok { store := store, ty := ty, storage := write_value_to val }

/-- `Global::get` (externals.rs): reads the definition cell at the global's
declared content type; any content type other than the four numeric ones hits
`unimplemented!`. -/
def Global.get (g : Global) : Outcome ApiErr Val :=
  match g.ty.content with
  | .i32 => .ok (.i32 (toSigned (2 ^ 32) (g.storage % 2 ^ 32)))
  | .i64 => .ok (.i64 (toSigned (2 ^ 64) (g.storage % 2 ^ 64)))
  | .f32 => .ok (.f32 (g.storage % 2 ^ 32))
  | .f64 => .ok (.f64 (g.storage % 2 ^ 64))
  | t => .panic (.globalGetUnimplemented t)

/-- `Global::set` (externals.rs): rejects, in order, an immutable global, a
value of the wrong tag, and a cross-store value, leaving the cell untouched;
then writes the value's raw bits over the low word of the cell.  A value of
any kind other than the four numeric ones that survives the checks hits
`unimplemented!`.  Returns the operation's outcome together with the
(possibly updated) global. -/
def Global.set (g : Global) (val : Val) : Outcome ApiErr Unit × Global :=
  if g.ty.mutability ≠ .var then (.err .immutableGlobal, g)
  else if val.ty ≠ g.ty.content then (.err (.globalSetTypeMismatch g.ty.content val.ty), g)
  else if ¬ val.comesFromSameStore g.store then (.err .crossStoreValue, g)
  else
    match val with
    | .i32 i => (.ok (), { g with storage := setLow (2 ^ 32) g.storage (toUnsigned (2 ^ 32) i) })
    | .i64 i => (.ok (), { g with storage := setLow (2 ^ 64) g.storage (toUnsigned (2 ^ 64) i) })
    | .f32 b => (.ok (), { g with storage := setLow (2 ^ 32) g.storage (b % 2 ^ 32) })
    | .f64 b => (.ok (), { g with storage := setLow (2 ^ 64) g.storage (b % 2 ^ 64) })
    | v => (.panic (.globalSetUnimplemented v.ty), g)

/-- C6 counterexample: a mutable global of the interface-types content type
`s8`, set with an `s8` value of the very same type from the same store, does
not succeed — it aborts through the `unimplemented!` arm — even though the
global itself is constructible through `Global::new`.  This refutes the
claim's unrestricted success clause. -/
theorem global_set_matching_value_panics :
    Global.new 0 ⟨.s8, .var⟩ (Val.s8 0) = .ok ⟨0, ⟨.s8, .var⟩, 0⟩ ∧
    (Global.set ⟨0, ⟨.s8, .var⟩, 0⟩ (Val.s8 0)).1 = .panic (.globalSetUnimplemented .s8) := by
  constructor <;> rfl

/-- C6 (amended): `Global::set` fails recoverably — leaving the stored value
unchanged — whenever the global is immutable, the value's type differs from
the content type, or the value comes from a different store; and when the
global is mutable, the value matches the content type and the store, and the
content type is one of the four numeric types, `set` succeeds and an
immediately following `get` returns exactly the value written. -/
theorem global_set_get_spec :
    (∀ (g : Global) (v : Val),
      (g.ty.mutability ≠ .var ∨ v.ty ≠ g.ty.content ∨ ¬ v.comesFromSameStore g.store) →
      ∃ e, g.set v = (.err e, g)) ∧
    (∀ (g : Global) (v : Val),
      g.ty.mutability = .var → v.ty = g.ty.content → v.comesFromSameStore g.store →
      v.wf →
      (g.ty.content = .i32 ∨ g.ty.content = .i64 ∨ g.ty.content = .f32 ∨ g.ty.content = .f64) →
      (g.set v).1 = .ok () ∧ (g.set v).2.get = .ok v) := by
  constructor
  · intro g v h
    by_cases h1 : g.ty.mutability = .var
    · by_cases h2 : v.ty = g.ty.content
      · by_cases h3 : v.comesFromSameStore g.store
        · tauto
        · exact ⟨.crossStoreValue, by simp [Global.set, h1, h2, h3]⟩
      · exact ⟨.globalSetTypeMismatch g.ty.content v.ty, by simp [Global.set, h1, h2]⟩
    · exact ⟨.immutableGlobal, by simp [Global.set, h1]⟩
  · intro g v hmut hty hst hwf hnum
    rcases hnum with h|h|h|h <;> rw [h] at hty <;>
      cases v <;> simp [Val.ty] at hty <;>
      simp [Val.wf] at hwf
    · refine ⟨by simp [Global.set, hmut, Val.ty, h, Val.comesFromSameStore], ?_⟩
      simp [Global.set, Global.get, hmut, Val.ty, h, Val.comesFromSameStore]
      unfold setLow toSigned toUnsigned
      split <;> omega
    · refine ⟨by simp [Global.set, hmut, Val.ty, h, Val.comesFromSameStore], ?_⟩
      simp [Global.set, Global.get, hmut, Val.ty, h, Val.comesFromSameStore]
      unfold setLow toSigned toUnsigned
      split <;> omega
    · refine ⟨by simp [Global.set, hmut, Val.ty, h, Val.comesFromSameStore], ?_⟩
      simp [Global.set, Global.get, hmut, Val.ty, h, Val.comesFromSameStore]
      unfold setLow
      omega
    · refine ⟨by simp [Global.set, hmut, Val.ty, h, Val.comesFromSameStore], ?_⟩
      simp [Global.set, Global.get, hmut, Val.ty, h, Val.comesFromSameStore]
      unfold setLow
      omega

/-- Witness for `global_set_get_spec`: an immutable `i32` global rejects a
write unchanged, and a mutable `i32` global set to `-5` reads back `-5`. -/
theorem global_set_get_spec_witness :
    (∃ e, Global.set ⟨0, ⟨.i32, .const⟩, 7⟩ (Val.i32 1) = (.err e, ⟨0, ⟨.i32, .const⟩, 7⟩)) ∧
    (Global.set ⟨0, ⟨.i32, .var⟩, 7⟩ (Val.i32 (-5))).1 = .ok () ∧
    (Global.set ⟨0, ⟨.i32, .var⟩, 7⟩ (Val.i32 (-5))).2.get = .ok (Val.i32 (-5)) :=
  ⟨global_set_get_spec.1 ⟨0, ⟨.i32, .const⟩, 7⟩ (Val.i32 1) (Or.inl (by decide)),
   global_set_get_spec.2 ⟨0, ⟨.i32, .var⟩, 7⟩ (Val.i32 (-5)) rfl rfl (by trivial)
     (by constructor <;> decide) (Or.inl rfl)⟩

/-- C10: `Global::get` aborts through `unimplemented!` on every content type
other than the four numeric ones, and `Global::set` aborts likewise on every
value kind other than the four numeric ones that passes the mutability, type
and store checks — neither returns a recoverable error in those cases. -/
theorem global_nonnumeric_panics :
    (∀ g : Global,
      g.ty.content ≠ .i32 → g.ty.content ≠ .i64 → g.ty.content ≠ .f32 → g.ty.content ≠ .f64 →
      g.get = .panic (.globalGetUnimplemented g.ty.content)) ∧
    (∀ (g : Global) (v : Val),
      g.ty.mutability = .var → v.ty = g.ty.content → v.comesFromSameStore g.store →
      v.ty ≠ .i32 → v.ty ≠ .i64 → v.ty ≠ .f32 → v.ty ≠ .f64 →
      (g.set v).1 = .panic (.globalSetUnimplemented v.ty)) := by
  constructor
  · intro g h1 h2 h3 h4
    unfold Global.get
    cases hc : g.ty.content <;> simp_all
  · intro g v hmut hty hst h1 h2 h3 h4
    cases v <;>
      simp [Val.ty] at h1 h2 h3 h4 hty <;>
      simp [Global.set, hmut, hty, hst, Val.ty, Val.comesFromSameStore]
    simp [Val.comesFromSameStore] at hst
    simp [hst]

/-- Witness for `global_nonnumeric_panics`: a `v128` global's `get` and a
mutable `u16` global's matching `set` both abort. -/
theorem global_nonnumeric_panics_witness :
    Global.get ⟨0, ⟨.v128, .var⟩, 0⟩ = .panic (.globalGetUnimplemented .v128) ∧
    (Global.set ⟨0, ⟨.u16, .var⟩, 0⟩ (Val.u16 3)).1 = .panic (.globalSetUnimplemented .u16) :=
  ⟨global_nonnumeric_panics.1 ⟨0, ⟨.v128, .var⟩, 0⟩ (by decide) (by decide) (by decide) (by decide),
   global_nonnumeric_panics.2 ⟨0, ⟨.u16, .var⟩, 0⟩ (Val.u16 3) rfl rfl (by trivial)
     (by decide) (by decide) (by decide) (by decide)⟩

/-! ## Tables (`Table`, externals.rs) -/

/-- A runtime table element (`VMCallerCheckedAnyfunc`): either the null
function reference — also the default element introduced by table growth — or
a checked function reference. -/
inductive Anyfunc where
  | null
  | func (id : Nat)
deriving DecidableEq

/-- Modelled from the spec: `into_checked_anyfunc` (values.rs, not under
src/).  Marshals a reference value into a runtime table element, rejecting a
value owned by a different store and any value that is not of a reference
kind. -/
def into_checked_anyfunc (val : Val) (store : Store) : Except ApiErr Anyfunc :=
  if ¬ val.comesFromSameStore store then .error .crossStoreValue
  else
    match val with
    | .anyrefNull => .ok .null
    | .funcref _ id => .ok (.func id)
    | _ => .error .valIsNotFuncref

/-- Modelled from the spec: `from_checked_anyfunc` (values.rs, not under
src/).  Reads a runtime table element back as a value of the reading table's
store. -/
def from_checked_anyfunc (item : Anyfunc) (store : Store) : Val :=
  match item with
  | .null => .anyrefNull
  | .func id => .funcref store id

/-- `TableType`: element type plus size bounds. -/
structure TableType where
  element : ValType
  minSize : Nat
  maxSize : Option Nat
deriving DecidableEq

/-- A `Table` handle (externals.rs): its owning store, its type, and the
state of the underlying runtime table it points at — the current element list
and the declared maximum enforced by the runtime. -/
structure Table where
  store : Store
  ty : TableType
  elems : List Anyfunc
  max : Option Nat
deriving DecidableEq

/-- `Table::size`: `current_elements` of the runtime definition. -/
def Table.size (t : Table) : Nat := t.elems.length

/-- `set_table_item` (externals.rs): the runtime's bounds-checked element
store, its unit error replaced by the api's out-of-bounds message. -/
def set_table_item (elems : List Anyfunc) (i : Nat) (item : Anyfunc) :
    Except ApiErr (List Anyfunc) :=
  if i < elems.length then .ok (elems.set i item) else .error .tableElementOutOfBounds

/-- Modelled from the spec: the runtime growth primitive
`InstanceHandle::table_grow` (wasmtime-runtime, not under src/).  The spec
fixes the failure condition — growth past the declared maximum (or past the
`u32` element-count space) fails with the table unchanged — and growth
appends `delta` default (null) elements.  The length handed back is the new
element count: that is the only reading under which the caller's fill loop
(`let i = len - (delta - i)` for `i in 0..delta`) initializes exactly the
newly added slots, as `Table::grow`'s own documentation states. -/
def table_grow (elems : List Anyfunc) (maxSize : Option Nat) (delta : Nat) :
    Option (Nat × List Anyfunc) :=
  let newLen := elems.length + delta
  if newLen < 2 ^ 32 then
    match maxSize with
    | some m =>
      if newLen ≤ m then some (newLen, elems ++ List.replicate delta .null) else none
    | none => some (newLen, elems ++ List.replicate delta .null)
  else none

/-- The initialization loop of `Table::grow`: `for i in 0..delta`, store
`item` at index `len - (delta - i)`.  The first argument counts the remaining
iterations (`delta - i`); an out-of-bounds store aborts the loop, leaving the
elements written so far in place, exactly as the `?` operator would. -/
def grow_fill (item : Anyfunc) (len delta : Nat) :
    Nat → Nat → List Anyfunc → Except ApiErr Unit × List Anyfunc
  | 0, _, es => (.ok (), es)
  | rem + 1, i, es =>
    match set_table_item es (len - (delta - i)) item with
    | .ok es' => grow_fill item len delta rem (i + 1) es'
    | .error e => (.error e, es)

/-- `Table::grow` (externals.rs): marshals `init`, asks the runtime to grow,
then fills indices `len - delta`, …, `len - 1` with the marshaled element.
Returns the outcome together with the (possibly updated) table. -/
def Table.grow (t : Table) (delta : Nat) (init : Val) : Except ApiErr Nat × Table :=
  match into_checked_anyfunc init t.store with
  | .error e => (.error e, t)
  | .ok item =>
    match table_grow t.elems t.max delta with
    | none => (.error (.tableGrowFailed delta), t)
    | some (len, elems') =>
      match grow_fill item len delta delta 0 elems' with
      | (.ok _, elems2) => (.ok len, { t with elems := elems2 })
      | (.error e, elems2) => (.error e, { t with elems := elems2 })

/-- Modelled from the spec: `runtime::Table::copy` (wasmtime-runtime, not
under src/): a bounds-checked bulk copy; an out-of-range sub-range on either
side fails the whole operation with no partial mutation visible. -/
def runtime_table_copy (dst src : List Anyfunc) (dstIdx srcIdx len : Nat) :
    Except ApiErr (List Anyfunc) :=
  if dstIdx + len ≤ dst.length ∧ srcIdx + len ≤ src.length then
    .ok ((List.range dst.length).map fun j =>
      if dstIdx ≤ j ∧ j < dstIdx + len then src.getD (srcIdx + (j - dstIdx)) .null
      else dst.getD j .null)
  else .error .tableCopyOutOfBounds

/-- `Table::copy` (externals.rs): rejects tables owned by different stores
before touching either side, then delegates to the runtime bulk copy.
Returns the outcome together with the (possibly updated) destination table
and the source table. -/
def Table.copy (dst : Table) (dstIdx : Nat) (src : Table) (srcIdx len : Nat) :
    Except ApiErr Unit × Table × Table :=
  if ¬ Store.same dst.store src.store then (.error .crossStoreTableCopy, dst, src)
  else
    match runtime_table_copy dst.elems src.elems dstIdx srcIdx len with
    | .ok elems' => (.ok (), { dst with elems := elems' }, src)
    | .error e => (.error e, dst, src)

lemma getD_set {α : Type} (es : List α) (k j : Nat) (item d : α) :
    (es.set k item).getD j d = if k = j ∧ j < es.length then item else es.getD j d := by
  by_cases hj : j < es.length
  · rw [List.getD_eq_getElem _ _ (by simpa using hj), List.getElem_set]
    by_cases hk : k = j
    · simp [hk, hj]
    · rw [if_neg hk, if_neg (by tauto : ¬(k = j ∧ j < es.length))]
      exact (List.getD_eq_getElem es d hj).symm
  · rw [List.getD_eq_default _ _ (by simpa using Nat.le_of_not_lt hj),
      List.getD_eq_default _ _ (Nat.le_of_not_lt hj), if_neg (by tauto)]

/-- Complete run of the fill loop: starting at iteration `i` (with `rem`
iterations left) over a buffer of length `len`, every iteration is in bounds,
and afterwards positions `len - delta + i`, …, `len - 1` hold `item` while
every other position is unchanged. -/
lemma grow_fill_spec (item : Anyfunc) (len delta : Nat) (hd : delta ≤ len) :
    ∀ (rem i : Nat) (es : List Anyfunc), rem + i = delta → es.length = len →
      ∃ es', grow_fill item len delta rem i es = (.ok (), es') ∧
        es'.length = len ∧
        ∀ j, es'.getD j .null =
          if len - delta + i ≤ j ∧ j < len then item else es.getD j .null := by
  intro rem
  induction rem with
  | zero =>
    intro i es hri hlen
    refine ⟨es, rfl, hlen, fun j => ?_⟩
    rw [if_neg (by omega)]
  | succ rem ih =>
    intro i es hri hlen
    have hidx : len - (delta - i) < es.length := by omega
    obtain ⟨es', hrec, hlen', hget⟩ :=
      ih (i + 1) (es.set (len - (delta - i)) item) (by omega) (by simpa using hlen)
    refine ⟨es', ?_, hlen', fun j => ?_⟩
    · rw [grow_fill, set_table_item, if_pos hidx]
      exact hrec
    · rw [hget j, getD_set]
      by_cases hj1 : len - delta + (i + 1) ≤ j ∧ j < len
      · rw [if_pos hj1, if_pos (by omega)]
      · rw [if_neg hj1]
        by_cases hj2 : len - delta + i ≤ j ∧ j < len
        · rw [if_pos hj2, if_pos (by omega)]
        · rw [if_neg hj2, if_neg (by omega)]

/-- C1 counterexample: a table of current size 1 and no declared maximum.
A successful `grow(2, null)` returns 3 — the size after the growth — and not
the size 1 the table had before it; and `grow(0, init)` with an `i32` init is
rejected by the element marshaling instead of returning the current size. -/
theorem table_grow_returns_new_size :
    (Table.grow ⟨0, ⟨.anyref, 1, none⟩, [.null], none⟩ 2 .anyrefNull).1 = .ok 3 ∧
    (3 : Nat) ≠ Table.size ⟨0, ⟨.anyref, 1, none⟩, [.null], none⟩ ∧
    (Table.grow ⟨0, ⟨.anyref, 1, none⟩, [.null], none⟩ 0 (.i32 0)).1 =
      .error .valIsNotFuncref := by
  refine ⟨rfl, by decide, rfl⟩

/-- C1 (amended): for every table, a successful `Table::grow(delta, init)`
extends the table by exactly `delta` slots, fills each of the `delta` newly
added slots (and no pre-existing slot) with the marshaled `init`, and returns
the table's size as it is after the growth — the previous size plus `delta`;
with `delta = 0` and an `init` accepted by the element marshaling, it is a
no-op that returns the unchanged current size. -/
theorem table_grow_spec (t : Table) (delta : Nat) (init : Val) (item : Anyfunc)
    (hmar : into_checked_anyfunc init t.store = .ok item)
    (hlen : t.size + delta < 2 ^ 32)
    (hmax : ∀ m ∈ t.max, t.size + delta ≤ m) :
    ∃ t', t.grow delta init = (.ok (t.size + delta), t') ∧
      t'.size = t.size + delta ∧
      (∀ i, i < t.size → t'.elems.getD i .null = t.elems.getD i .null) ∧
      (∀ i, t.size ≤ i → i < t.size + delta → t'.elems.getD i .null = item) ∧
      t'.store = t.store ∧ t'.ty = t.ty ∧ t'.max = t.max := by
  have hgrow : table_grow t.elems t.max delta =
      some (t.size + delta, t.elems ++ List.replicate delta .null) := by
    unfold table_grow
    cases hm : t.max with
    | none => simp [Table.size] at hlen ⊢; omega
    | some m =>
      have := hmax m (by simp [hm])
      simp [Table.size] at hlen this ⊢
      constructor <;> omega
  obtain ⟨es', hfill, hflen, hfget⟩ :=
    grow_fill_spec item (t.size + delta) delta (by omega) delta 0
      (t.elems ++ List.replicate delta .null) (by omega)
      (by simp [Table.size, List.length_append, List.length_replicate])
  refine ⟨{ t with elems := es' }, ?_, ?_, ?_, ?_, rfl, rfl, rfl⟩
  · unfold Table.grow
    rw [hmar, hgrow]
    simp [hfill]
  · simpa [Table.size] using hflen
  · intro i hi
    rw [hfget i, if_neg (by omega), List.getD_append _ _ _ _ hi]
  · intro i h1 h2
    rw [hfget i, if_pos (by omega)]

/-- Witness for `table_grow_spec`: growing a one-element table by 2 null
references succeeds, returning 3 and leaving slot 0 untouched. -/
theorem table_grow_spec_witness :
    ∃ t', Table.grow ⟨0, ⟨.anyref, 1, none⟩, [.func 4], none⟩ 2 .anyrefNull =
        (.ok (Table.size ⟨0, ⟨.anyref, 1, none⟩, [.func 4], none⟩ + 2), t') ∧
      t'.size = Table.size ⟨0, ⟨.anyref, 1, none⟩, [.func 4], none⟩ + 2 ∧
      (∀ i, i < Table.size ⟨0, ⟨.anyref, 1, none⟩, [.func 4], none⟩ →
        t'.elems.getD i .null =
          (Table.elems ⟨0, ⟨.anyref, 1, none⟩, [.func 4], none⟩).getD i .null) ∧
      (∀ i, Table.size ⟨0, ⟨.anyref, 1, none⟩, [.func 4], none⟩ ≤ i →
        i < Table.size ⟨0, ⟨.anyref, 1, none⟩, [.func 4], none⟩ + 2 →
        t'.elems.getD i .null = .null) ∧
      t'.store = 0 ∧ t'.ty = ⟨.anyref, 1, none⟩ ∧ t'.max = none :=
  table_grow_spec ⟨0, ⟨.anyref, 1, none⟩, [.func 4], none⟩ 2 .anyrefNull .null
    rfl (by decide) (by simp)

/-! ## Native export synthesis (`NativeCallable`, callable.rs) -/

/-- A function type of the public api (`FuncType`). -/
structure FuncType where
  params : List ValType
  results : List ValType
deriving DecidableEq

/-- The instance handle and export produced by the export generator. -/
structure ExportFunction where
  instanceId : Nat
  exportId : Nat
deriving DecidableEq

/-- A synthesized guest-callable export wrapping a host callable. -/
structure NativeCallable where
  instanceId : Nat
  exportId : Nat
deriving DecidableEq

/-- `NativeCallable::new` (callable.rs): synthesizes the guest-callable stub
through `generate_func_export` (trampoline layer, not under src/; here a
parameter) and aborts — `.expect("generated func")` — when the generator
fails.  The return type has no recoverable-error constructor (`ε = Empty`),
so a generator failure can only surface as the abort. -/
def NativeCallable.new (gen : FuncType → Option ExportFunction) (ft : FuncType) :
    Outcome Empty NativeCallable :=
  match gen ft with
  | some e => .ok ⟨e.instanceId, e.exportId⟩
  | none => .panic .generatedFunc

/-- C9: when the export generator cannot synthesize the stub for a declared
function type, `NativeCallable::new` aborts at construction time (the panic
of `expect`); by its type it cannot hand a recoverable error back to the
caller. -/
theorem native_callable_new_panics (gen : FuncType → Option ExportFunction)
    (ft : FuncType) (h : gen ft = none) :
    NativeCallable.new gen ft = .panic .generatedFunc := by
  unfold NativeCallable.new
  rw [h]

/-- Witness for `native_callable_new_panics`: a generator that always fails. -/
theorem native_callable_new_panics_witness :
    NativeCallable.new (fun _ => none) ⟨[], []⟩ = .panic .generatedFunc :=
  native_callable_new_panics (fun _ => none) ⟨[], []⟩ rfl

/-- C7: every operation combining two items of different stores fails
deterministically with a recoverable error and mutates neither side:
`Global::new` with a foreign initial value, `Global::set` with a foreign
value (the global is returned unchanged), and `Table::copy` between tables of
different stores (both tables are returned unchanged). -/
theorem cross_store_rejected :
    (∀ (store : Store) (ty : GlobalType) (v : Val), ¬ v.comesFromSameStore store →
      Global.new store ty v = .error .crossStoreGlobal) ∧
    (∀ (g : Global) (v : Val), ¬ v.comesFromSameStore g.store →
      ∃ e, g.set v = (.err e, g)) ∧
    (∀ (dst : Table) (dstIdx : Nat) (src : Table) (srcIdx len : Nat),
      ¬ Store.same dst.store src.store →
      Table.copy dst dstIdx src srcIdx len = (.error .crossStoreTableCopy, dst, src)) := by
  refine ⟨?_, ?_, ?_⟩
  · intro store ty v h
    simp [Global.new, h]
  · intro g v h
    by_cases h1 : g.ty.mutability = .var
    · by_cases h2 : v.ty = g.ty.content
      · exact ⟨.crossStoreValue, by simp [Global.set, h1, h2, h]⟩
      · exact ⟨.globalSetTypeMismatch g.ty.content v.ty, by simp [Global.set, h1, h2]⟩
    · exact ⟨.immutableGlobal, by simp [Global.set, h1]⟩
  · intro dst dstIdx src srcIdx len h
    simp [Table.copy, h]

/-- Witness for `cross_store_rejected`: items of store 0 mixed with values
and tables of store 1. -/
theorem cross_store_rejected_witness :
    Global.new 0 ⟨.funcref, .var⟩ (Val.funcref 1 0) = .error .crossStoreGlobal ∧
    (∃ e, Global.set ⟨0, ⟨.funcref, .var⟩, 0⟩ (Val.funcref 1 0) =
      (.err e, ⟨0, ⟨.funcref, .var⟩, 0⟩)) ∧
    Table.copy ⟨0, ⟨.funcref, 1, none⟩, [.null], none⟩ 0
        ⟨1, ⟨.funcref, 1, none⟩, [.null], none⟩ 0 1 =
      (.error .crossStoreTableCopy, ⟨0, ⟨.funcref, 1, none⟩, [.null], none⟩,
        ⟨1, ⟨.funcref, 1, none⟩, [.null], none⟩) :=
  ⟨cross_store_rejected.1 0 ⟨.funcref, .var⟩ (Val.funcref 1 0) (by simp [Val.comesFromSameStore]),
   cross_store_rejected.2.1 ⟨0, ⟨.funcref, .var⟩, 0⟩ (Val.funcref 1 0)
     (by simp [Val.comesFromSameStore]),
   cross_store_rejected.2.2 ⟨0, ⟨.funcref, 1, none⟩, [.null], none⟩ 0
     ⟨1, ⟨.funcref, 1, none⟩, [.null], none⟩ 0 1 (by simp [Store.same])⟩

end Wasmtime
